import Mathlib

/-!
Shallow embedding of `src/app.py`, a single-endpoint Flask service that
forwards a shopping query to an external text-generation API and returns
the text verbatim.  The external generation call is modelled as an opaque
parameter `gen : String → GenOutcome`; machine state is the boolean
`modelInit` (whether the global `model` object was initialized at startup).
-/

namespace WillIRegret

/-- Values produced by parsing a JSON document, as Python represents them
(dict, list, str, number, bool, null).  Numbers are taken as integers: the
only fact about numbers the handlers use is truthiness (zero vs nonzero). -/
inductive Json where
  | null
  | bool (b : Bool)
  | num (n : Int)
  | str (s : String)
  | arr (xs : List Json)
  | obj (fields : List (String × Json))

/-- Python truthiness of a parsed JSON value: `None`, `False`, `0`, the empty
string, the empty list and the empty dict are falsy, everything else truthy. -/
def Json.truthy : Json → Bool
  | Json.null => false
  | Json.bool b => b
  | Json.num n => n != 0
  | Json.str s => s != ""
  | Json.arr xs => !xs.isEmpty
  | Json.obj fs => !fs.isEmpty

/-- Truthiness of the result of `request.get_json(silent=True)`: `none` plays
the role of Python `None` (malformed body, or a body whose JSON text is
`null`), which is falsy. -/
def dataTruthy : Option Json → Bool
  | none => false
  | some j => j.truthy

/-- Dictionary lookup `data.get(key)`: `none` models Python `None` for an
absent key.  JSON objects parsed by Python have unique keys, so first-match
lookup over the field list is the dict lookup. -/
def lookupField (fields : List (String × Json)) (key : String) : Option Json :=
  match fields with
  | [] => none
  | (k, v) :: rest => if k == key then some v else lookupField rest key

/-- Characters removed by Python `str.strip()` with no argument: everything
CPython's `str.isspace()` holds true of — the ASCII whitespace characters
tab, newline, vertical tab, form feed, carriage return and space, the
separators U+1C to U+1F, next line U+85, no-break space U+A0, ogham space
U+1680, the typographic spaces U+2000 to U+200A, the line and paragraph
separators U+2028 and U+2029, narrow no-break space U+202F, mathematical
space U+205F, and ideographic space U+3000. -/
def isPySpace (c : Char) : Bool :=
  c == '\t' || c == '\n' || c == '\x0b' || c == '\x0c' || c == '\r' ||
  c == '\x1c' || c == '\x1d' || c == '\x1e' || c == '\x1f' || c == ' ' ||
  c == '\u0085' || c == '\u00a0' || c == '\u1680' ||
  c == '\u2000' || c == '\u2001' || c == '\u2002' || c == '\u2003' ||
  c == '\u2004' || c == '\u2005' || c == '\u2006' || c == '\u2007' ||
  c == '\u2008' || c == '\u2009' || c == '\u200a' ||
  c == '\u2028' || c == '\u2029' || c == '\u202f' || c == '\u205f' ||
  c == '\u3000'

/-- Python `s.strip()`: remove leading and trailing Unicode whitespace. -/
def pyStrip (s : String) : String :=
  String.mk (((s.toList.dropWhile isPySpace).reverse.dropWhile isPySpace).reverse)

/-- Outcome of one call to the external generation capability
(`model.generate_content(prompt)` followed by `.text`): the produced text,
a raised `google.generativeai.errors.APIError`, or any other raised
exception.  `app.py` treats the call as this opaque capability. -/
inductive GenOutcome where
  | ok (text : String)
  | apiError (msg : String)
  | otherError (msg : String)

/-- An exception value as the handler distinguishes them: an `APIError`
(matched by the first except clause) or any other `Exception`. -/
inductive PyExn where
  | apiError (msg : String)
  | other (msg : String)

/-- Result of a Python call that can raise: a returned string or an
exception. -/
inductive PyResult where
  | ok (text : String)
  | exn (e : PyExn)

/-- Part of the f-string template of app.py lines 51 to 73 that precedes the
interpolated query. -/
def promptHead : String := "\nYou are a smart shopping assistant.\n\nITEM CONTEXT: "

/-- Part of the f-string template of app.py lines 51 to 73 that follows the
interpolated query. -/
def promptTail : String := "\n\nTASK:\n1) Analyze factors:\n   - Style (trendy vs timeless)\n   - Price (fairness)\n   - Material quality\n   - Return policy\n   - Personal relevance\n   - Reviews & brand reputation\n   - Redundancy (similar items already owned)\n   - Lasting desire (will I still want it in a week?)\n2) Output:\n   - Main title: \"You are X% likely to regret buying [ITEM] ([Do it or Don\x27t do it]!)\"\n   - Table: Factor | What I See | Regret Risk (🔴,🟡,🟢)\n   - Comparable purchases based on browsing history\n   - Tone: friendly, honest, human\n\nReturn in readable, structured format.\n"

/-- The rendered prompt: the fixed template with the query interpolated
verbatim (an f-string is exactly this concatenation). -/
def prompt (query : String) : String := promptHead ++ query ++ promptTail

/-- Function `execute_will_i_regret_buying` of app.py lines 44 to 75, together
with the number of calls it makes to the generation capability.  If the
global model is uninitialized it raises a plain `Exception`; otherwise it
sends the rendered prompt and returns `response.text` unmodified. -/
def execute_will_i_regret_buying (modelInit : Bool) (gen : String → GenOutcome)
    (query : String) : PyResult × Nat :=
  if modelInit = false then
    (PyResult.exn (PyExn.other "AI model failed to initialize due to missing or invalid API key."), 0)
  else
    match gen (prompt query) with
    | GenOutcome.ok t => (PyResult.ok t, 1)
    | GenOutcome.apiError m => (PyResult.exn (PyExn.apiError m), 1)
    | GenOutcome.otherError m => (PyResult.exn (PyExn.other m), 1)

/-- An HTTP response: status code and JSON body. -/
structure HttpResponse where
  status : Nat
  body : Json

/-- What the handler produces for one request: a response, or an exception
that escapes the handler (the hosting framework, not this code, then deals
with it). -/
inductive ExecOutcome where
  | response (r : HttpResponse)
  | uncaught (e : String)

/-- Full account of one run of the `execute` handler: its outcome, how many
times the generation capability was invoked, and the server-side log lines
it printed about generation failures. -/
structure ExecResult where
  outcome : ExecOutcome
  genCalls : Nat
  log : List String

/-- Handler of `POST /api/execute`, app.py lines 100 to 132.  `data` is the
result of `request.get_json(silent=True)`.  The query validation
`not query or not isinstance(query, str) or not query.strip()` accepts
exactly the string values with non-empty strip: a falsy or non-string value
fails one of the first two tests, and for a string the first test
(emptiness) is subsumed by the strip test; hence the match below.  When
`data` is truthy but not a dict, `data.get` raises `AttributeError`, which
no `except` clause covers. -/
def execute (modelInit : Bool) (gen : String → GenOutcome) (data : Option Json) :
    ExecResult :=
  if modelInit = false then
    ⟨ExecOutcome.response ⟨503, Json.obj [("error", Json.str "AI service not initialized. Check API key configuration.")]⟩, 0, []⟩
  else if dataTruthy data = false then
    ⟨ExecOutcome.response ⟨400, Json.obj [("error", Json.str "Invalid or missing JSON payload.")]⟩, 0, []⟩
  else
    match data with
    | some (Json.obj fields) =>
      match lookupField fields "query" with
      | some (Json.str s) =>
        if pyStrip s = "" then
          ⟨ExecOutcome.response ⟨400, Json.obj [("error", Json.str "Missing or empty \"query\" field in the request.")]⟩, 0, []⟩
        else
          match execute_will_i_regret_buying modelInit gen s with
          | (PyResult.ok r, n) =>
            ⟨ExecOutcome.response ⟨200, Json.obj [("success", Json.bool true), ("result", Json.str r)]⟩, n, []⟩
          | (PyResult.exn (PyExn.apiError m), n) =>
            ⟨ExecOutcome.response ⟨503, Json.obj [("error", Json.str ("AI Service Unavailable or request error: " ++ m))]⟩, n, ["Gemini API Error: " ++ m]⟩
          | (PyResult.exn (PyExn.other m), n) =>
            ⟨ExecOutcome.response ⟨500, Json.obj [("error", Json.str "An unexpected internal server error occurred.")]⟩, n, ["Internal Server Error: " ++ m]⟩
      | _ =>
        ⟨ExecOutcome.response ⟨400, Json.obj [("error", Json.str "Missing or empty \"query\" field in the request.")]⟩, 0, []⟩
    | _ =>
      ⟨ExecOutcome.uncaught "AttributeError: the parsed JSON value has no attribute get", 0, []⟩

/-- Hardcoded model identifier, app.py line 13. -/
def MODEL_TO_USE : String := "gemini-2.5-flash"

/-- Handler of `GET /check`, app.py lines 79 to 96, paired with the number of
calls it makes to the generation capability (its body contains none, so the
count is zero by construction). -/
def check (modelInit : Bool) : HttpResponse × Nat :=
  let status_code : Nat := if modelInit = false then 503 else 200
  let message : String :=
    if modelInit = false then "backend is running, but AI model failed to initialize."
    else "backend is running"
  (⟨status_code,
    Json.obj [("status", Json.str (if status_code = 200 then "ok" else "error")),
              ("message", Json.str message),
              ("model", Json.str MODEL_TO_USE)]⟩, 0)

/-- Does the character list given second start with the one given first? -/
def leadMatch : List Char → List Char → Bool
  | [], _ => true
  | _ :: _, [] => false
  | a :: as, b :: bs => (a == b) && leadMatch as bs

/-- Does some suffix of the second list start with the first list? -/
def subSearch (pat : List Char) : List Char → Bool
  | [] => leadMatch pat []
  | c :: rest => leadMatch pat (c :: rest) || subSearch pat rest

/-- Substring test: does `s` contain `pat`? -/
def containsSub (s pat : String) : Bool := subSearch pat.toList s.toList

end WillIRegret

namespace WillIRegret

/-- Claim C1: for a query that is a string and non-empty after stripping, with
the generation capability initialized, the handler returns 200 with
success true and the generated text verbatim, after exactly one call. -/
theorem claim1_success_returns_generation_text (gen : String → GenOutcome)
    (fields : List (String × Json)) (s r : String)
    (hq : lookupField fields "query" = some (Json.str s))
    (hs : pyStrip s ≠ "")
    (hg : gen (prompt s) = GenOutcome.ok r) :
    execute true gen (some (Json.obj fields)) =
      ⟨ExecOutcome.response ⟨200, Json.obj [("success", Json.bool true), ("result", Json.str r)]⟩, 1, []⟩ := by
  have hne : fields.isEmpty = false := by
    cases fields with
    | nil => simp [lookupField] at hq
    | cons a l => rfl
  simp [execute, dataTruthy, Json.truthy, hne, hq, hs, execute_will_i_regret_buying, hg]

/-- Witness for claim C1 at a concrete request and generation stub. -/
theorem claim1_witness :
    execute true (fun _ => GenOutcome.ok "Sample analysis")
        (some (Json.obj [("query", Json.str "black leather jacket, $250, final sale")])) =
      ⟨ExecOutcome.response ⟨200, Json.obj [("success", Json.bool true), ("result", Json.str "Sample analysis")]⟩, 1, []⟩ :=
  claim1_success_returns_generation_text _ _ "black leather jacket, $250, final sale" "Sample analysis"
    rfl (by decide) rfl

/-- Claim C2: a query value that is absent, not a string, or with empty strip
is answered 400 and the generation capability is never invoked. -/
theorem claim2_invalid_query_rejected (gen : String → GenOutcome)
    (fields : List (String × Json))
    (hq : ∀ s, lookupField fields "query" = some (Json.str s) → pyStrip s = "") :
    ∃ b, (execute true gen (some (Json.obj fields))).outcome = ExecOutcome.response ⟨400, b⟩ ∧
      (execute true gen (some (Json.obj fields))).genCalls = 0 := by
  cases fields with
  | nil => exact ⟨Json.obj [("error", Json.str "Invalid or missing JSON payload.")], rfl, rfl⟩
  | cons p rest =>
    rcases hL : lookupField (p :: rest) "query" with _ | j
    · exact ⟨Json.obj [("error", Json.str "Missing or empty \"query\" field in the request.")],
        by simp [execute, dataTruthy, Json.truthy, hL], by simp [execute, dataTruthy, Json.truthy, hL]⟩
    · cases j with
      | str s =>
        have hstrip := hq s hL
        exact ⟨Json.obj [("error", Json.str "Missing or empty \"query\" field in the request.")],
          by simp [execute, dataTruthy, Json.truthy, hL, hstrip],
          by simp [execute, dataTruthy, Json.truthy, hL, hstrip]⟩
      | null =>
        exact ⟨Json.obj [("error", Json.str "Missing or empty \"query\" field in the request.")],
          by simp [execute, dataTruthy, Json.truthy, hL], by simp [execute, dataTruthy, Json.truthy, hL]⟩
      | bool b =>
        exact ⟨Json.obj [("error", Json.str "Missing or empty \"query\" field in the request.")],
          by simp [execute, dataTruthy, Json.truthy, hL], by simp [execute, dataTruthy, Json.truthy, hL]⟩
      | num n =>
        exact ⟨Json.obj [("error", Json.str "Missing or empty \"query\" field in the request.")],
          by simp [execute, dataTruthy, Json.truthy, hL], by simp [execute, dataTruthy, Json.truthy, hL]⟩
      | arr xs =>
        exact ⟨Json.obj [("error", Json.str "Missing or empty \"query\" field in the request.")],
          by simp [execute, dataTruthy, Json.truthy, hL], by simp [execute, dataTruthy, Json.truthy, hL]⟩
      | obj fs =>
        exact ⟨Json.obj [("error", Json.str "Missing or empty \"query\" field in the request.")],
          by simp [execute, dataTruthy, Json.truthy, hL], by simp [execute, dataTruthy, Json.truthy, hL]⟩

/-- Witness for claim C2: a whitespace-only query is rejected with 400 and
zero generation calls. -/
theorem claim2_witness :
    ∃ b, (execute true (fun _ => GenOutcome.ok "t") (some (Json.obj [("query", Json.str "  ")]))).outcome =
        ExecOutcome.response ⟨400, b⟩ ∧
      (execute true (fun _ => GenOutcome.ok "t") (some (Json.obj [("query", Json.str "  ")]))).genCalls = 0 :=
  claim2_invalid_query_rejected _ _ (fun s h => by
    have h2 : Json.str "  " = Json.str s := Option.some.inj h
    injection h2 with h3
    subst h3
    decide)

end WillIRegret

namespace WillIRegret

/-- Claim C3: uninitialized capability gives 503 from the execute handler with
zero generation calls, and the check handler answers 503 with status error. -/
theorem claim3_uninitialized_503 (gen : String → GenOutcome) (data : Option Json) :
    (execute false gen data).outcome =
      ExecOutcome.response ⟨503, Json.obj [("error", Json.str "AI service not initialized. Check API key configuration.")]⟩ ∧
    (execute false gen data).genCalls = 0 ∧
    check false =
      (⟨503, Json.obj [("status", Json.str "error"),
                       ("message", Json.str "backend is running, but AI model failed to initialize."),
                       ("model", Json.str MODEL_TO_USE)]⟩, 0) :=
  ⟨rfl, rfl, rfl⟩

/-- Claim C4: an APIError from the generation call yields 503 with a message
distinct from the generic internal one, any other exception yields 500 with
only the generic message, and both log the original detail server-side. -/
theorem claim4_generation_error_taxonomy (gen gen2 : String → GenOutcome)
    (fields : List (String × Json)) (s m m2 : String)
    (hq : lookupField fields "query" = some (Json.str s))
    (hs : pyStrip s ≠ "")
    (hApi : gen (prompt s) = GenOutcome.apiError m)
    (hOther : gen2 (prompt s) = GenOutcome.otherError m2) :
    execute true gen (some (Json.obj fields)) =
      ⟨ExecOutcome.response ⟨503, Json.obj [("error", Json.str ("AI Service Unavailable or request error: " ++ m))]⟩,
       1, ["Gemini API Error: " ++ m]⟩ ∧
    ("AI Service Unavailable or request error: " ++ m) ≠ "An unexpected internal server error occurred." ∧
    execute true gen2 (some (Json.obj fields)) =
      ⟨ExecOutcome.response ⟨500, Json.obj [("error", Json.str "An unexpected internal server error occurred.")]⟩,
       1, ["Internal Server Error: " ++ m2]⟩ := by
  have hne : fields.isEmpty = false := by
    cases fields with
    | nil => simp [lookupField] at hq
    | cons a l => rfl
  refine ⟨?_, ?_, ?_⟩
  · simp [execute, dataTruthy, Json.truthy, hne, hq, hs, execute_will_i_regret_buying, hApi]
  · intro h
    have h2 : ("AI Service Unavailable or request error: " ++ m).data.take 2 =
        ("An unexpected internal server error occurred." : String).data.take 2 :=
      congrArg (fun t : String => t.data.take 2) h
    rw [show ("AI Service Unavailable or request error: " ++ m).data.take 2 = ['A', 'I'] from rfl] at h2
    exact absurd h2 (by decide)
  · simp [execute, dataTruthy, Json.truthy, hne, hq, hs, execute_will_i_regret_buying, hOther]

/-- Witness for claim C4 at a concrete request with stubbed failing calls. -/
theorem claim4_witness :
    execute true (fun _ => GenOutcome.apiError "rate limited") (some (Json.obj [("query", Json.str "q")])) =
      ⟨ExecOutcome.response ⟨503, Json.obj [("error", Json.str ("AI Service Unavailable or request error: " ++ "rate limited"))]⟩,
       1, ["Gemini API Error: " ++ "rate limited"]⟩ ∧
    ("AI Service Unavailable or request error: " ++ "rate limited") ≠ "An unexpected internal server error occurred." ∧
    execute true (fun _ => GenOutcome.otherError "boom") (some (Json.obj [("query", Json.str "q")])) =
      ⟨ExecOutcome.response ⟨500, Json.obj [("error", Json.str "An unexpected internal server error occurred.")]⟩,
       1, ["Internal Server Error: " ++ "boom"]⟩ :=
  claim4_generation_error_taxonomy _ _ _ "q" "rate limited" "boom" rfl (by decide) rfl rfl

set_option maxRecDepth 8192 in
/-- Claim C5: the rendered prompt is the fixed template with the query
interpolated verbatim between a fixed head and tail, the head carries the
shopping-assistant role framing, the tail carries the eight-factor checklist
and the output-format directive, and on success the generation output is
returned unmodified. -/
theorem claim5_prompt_template_verbatim (q t : String) (gen : String → GenOutcome)
    (hg : gen (prompt q) = GenOutcome.ok t) :
    execute_will_i_regret_buying true gen q = (PyResult.ok t, 1) ∧
    prompt q = promptHead ++ q ++ promptTail ∧
    containsSub promptHead "You are a smart shopping assistant." = true ∧
    containsSub promptTail "- Style (trendy vs timeless)" = true ∧
    containsSub promptTail "- Price (fairness)" = true ∧
    containsSub promptTail "- Material quality" = true ∧
    containsSub promptTail "- Return policy" = true ∧
    containsSub promptTail "- Personal relevance" = true ∧
    containsSub promptTail "- Reviews & brand reputation" = true ∧
    containsSub promptTail "- Redundancy (similar items already owned)" = true ∧
    containsSub promptTail "- Lasting desire (will I still want it in a week?)" = true ∧
    containsSub promptTail "Main title: \"You are X% likely to regret buying [ITEM]" = true ∧
    containsSub promptTail "Table: Factor | What I See | Regret Risk" = true ∧
    containsSub promptTail "Return in readable, structured format." = true := by
  refine ⟨?_, rfl, by decide, by decide, by decide, by decide, by decide, by decide, by decide,
    by decide, by decide, by decide, by decide, by decide⟩
  simp [execute_will_i_regret_buying, hg]

/-- Witness for claim C5 at a concrete query and generation stub. -/
theorem claim5_witness :
    execute_will_i_regret_buying true (fun _ => GenOutcome.ok "analysis") "wool socks" =
      (PyResult.ok "analysis", 1) :=
  (claim5_prompt_template_verbatim "wool socks" "analysis" (fun _ => GenOutcome.ok "analysis") rfl).1

/-- Claim C6: a body that does not parse as JSON (get_json yields None) is
answered 400 with the invalid-payload error envelope, given an initialized
capability. -/
theorem claim6_malformed_body_400 (gen : String → GenOutcome) :
    execute true gen none =
      ⟨ExecOutcome.response ⟨400, Json.obj [("error", Json.str "Invalid or missing JSON payload.")]⟩, 0, []⟩ := rfl

/-- Claim C7: with the capability initialized, the check handler answers 200
with status ok and the configured model identifier, making zero calls to the
generation capability. -/
theorem claim7_check_ok_when_initialized :
    check true =
      (⟨200, Json.obj [("status", Json.str "ok"),
                       ("message", Json.str "backend is running"),
                       ("model", Json.str MODEL_TO_USE)]⟩, 0) ∧
    MODEL_TO_USE = "gemini-2.5-flash" :=
  ⟨rfl, rfl⟩

/-- Claim C9: the initialization check precedes payload parsing, so with the
capability uninitialized every body, malformed JSON and missing or empty
query included, is answered 503 with zero generation calls. -/
theorem claim9_init_check_precedes_parsing (gen : String → GenOutcome) (data : Option Json) :
    execute false gen data =
      ⟨ExecOutcome.response ⟨503, Json.obj [("error", Json.str "AI service not initialized. Check API key configuration.")]⟩, 0, []⟩ := rfl

/-- Claim C10: a body parsing to a falsy JSON value is answered with the
invalid-payload 400 envelope, whose message differs from the missing-query
one. -/
theorem claim10_falsy_json_invalid_payload (gen : String → GenOutcome) (j : Json)
    (h : j.truthy = false) :
    execute true gen (some j) =
      ⟨ExecOutcome.response ⟨400, Json.obj [("error", Json.str "Invalid or missing JSON payload.")]⟩, 0, []⟩ ∧
    ("Invalid or missing JSON payload." : String) ≠ "Missing or empty \"query\" field in the request." := by
  refine ⟨?_, by decide⟩
  simp [execute, dataTruthy, h]

/-- Witness for claim C10 at the empty JSON object. -/
theorem claim10_witness :
    execute true (fun _ => GenOutcome.ok "t") (some (Json.obj [])) =
      ⟨ExecOutcome.response ⟨400, Json.obj [("error", Json.str "Invalid or missing JSON payload.")]⟩, 0, []⟩ ∧
    ("Invalid or missing JSON payload." : String) ≠ "Missing or empty \"query\" field in the request." :=
  claim10_falsy_json_invalid_payload _ (Json.obj []) rfl

end WillIRegret

namespace WillIRegret

/-- Claim C8 counterexample: the handler is not total — for a request body
parsing to a truthy non-object JSON value (here the array [1]) the attribute
lookup raises and no response envelope is produced, whatever the generation
capability does. -/
theorem claim8_counterexample :
    ¬ (∀ (gen : String → GenOutcome) (data : Option Json),
        ∃ r, (execute true gen data).outcome = ExecOutcome.response r) := by
  intro h
  obtain ⟨r, hr⟩ := h (fun _ => GenOutcome.ok "") (some (Json.arr [Json.num 1]))
  simp [execute, dataTruthy, Json.truthy] at hr

/-- Claim C8 as amended: for every body that fails to parse, parses to a JSON
object, or parses to a falsy value — and every behavior of the generation
call and every initialization state — the handler returns a JSON envelope
with status 200, 400, 500 or 503; only truthy non-object bodies escape. -/
theorem claim8_amended_boundary_totality (modelInit : Bool) (gen : String → GenOutcome)
    (data : Option Json)
    (h : data = none ∨ (∃ fs, data = some (Json.obj fs)) ∨ dataTruthy data = false) :
    ∃ st b, (execute modelInit gen data).outcome = ExecOutcome.response ⟨st, b⟩ ∧
      (st = 200 ∨ st = 400 ∨ st = 500 ∨ st = 503) := by
  cases modelInit with
  | false =>
    exact ⟨503, Json.obj [("error", Json.str "AI service not initialized. Check API key configuration.")],
      rfl, by simp⟩
  | true =>
    by_cases ht : dataTruthy data = false
    · exact ⟨400, Json.obj [("error", Json.str "Invalid or missing JSON payload.")],
        by simp [execute, ht], by simp⟩
    · rw [Bool.not_eq_false] at ht
      rcases h with h | ⟨fs, h⟩ | h
      · subst h; simp [dataTruthy] at ht
      · subst h
        rcases hL : lookupField fs "query" with _ | j
        · exact ⟨400, Json.obj [("error", Json.str "Missing or empty \"query\" field in the request.")],
            by simp [execute, ht, hL], by simp⟩
        · cases j with
          | str s =>
            by_cases hs : pyStrip s = ""
            · exact ⟨400, Json.obj [("error", Json.str "Missing or empty \"query\" field in the request.")],
                by simp [execute, ht, hL, hs], by simp⟩
            · rcases hg : gen (prompt s) with t | m | m
              · exact ⟨200, Json.obj [("success", Json.bool true), ("result", Json.str t)],
                  by simp [execute, execute_will_i_regret_buying, ht, hL, hs, hg], by simp⟩
              · exact ⟨503, Json.obj [("error", Json.str ("AI Service Unavailable or request error: " ++ m))],
                  by simp [execute, execute_will_i_regret_buying, ht, hL, hs, hg], by simp⟩
              · exact ⟨500, Json.obj [("error", Json.str "An unexpected internal server error occurred.")],
                  by simp [execute, execute_will_i_regret_buying, ht, hL, hs, hg], by simp⟩
          | null =>
            exact ⟨400, Json.obj [("error", Json.str "Missing or empty \"query\" field in the request.")],
              by simp [execute, ht, hL], by simp⟩
          | bool b =>
            exact ⟨400, Json.obj [("error", Json.str "Missing or empty \"query\" field in the request.")],
              by simp [execute, ht, hL], by simp⟩
          | num n =>
            exact ⟨400, Json.obj [("error", Json.str "Missing or empty \"query\" field in the request.")],
              by simp [execute, ht, hL], by simp⟩
          | arr xs =>
            exact ⟨400, Json.obj [("error", Json.str "Missing or empty \"query\" field in the request.")],
              by simp [execute, ht, hL], by simp⟩
          | obj fs2 =>
            exact ⟨400, Json.obj [("error", Json.str "Missing or empty \"query\" field in the request.")],
              by simp [execute, ht, hL], by simp⟩
      · rw [h] at ht; cases ht

/-- Witness for the amended claim C8 at a concrete object body. -/
theorem claim8_witness :
    ∃ st b, (execute true (fun _ => GenOutcome.ok "t")
        (some (Json.obj [("query", Json.str "x")]))).outcome = ExecOutcome.response ⟨st, b⟩ ∧
      (st = 200 ∨ st = 400 ∨ st = 500 ∨ st = 503) :=
  claim8_amended_boundary_totality true _ _ (Or.inr (Or.inl ⟨_, rfl⟩))

end WillIRegret
